import Mathlib

/-!
Shallow embedding of the identity / tenant-provisioning core of the
kyucollect backend (src/src/services/auth/auth.service.ts, the auth
controller, the auth middleware and the Store / User entities).

Conventions of the embedding:
* a JavaScript `Date` is represented by `DateTime` (epoch milliseconds
  plus the value of `getFullYear()`, the only projection the code uses);
* the external libraries `bcryptjs` and the `Date` string parser are
  modelled as function parameters collected in `Env` (the code calls
  them but their implementation is outside the repository);
* the TypeORM repositories are modelled by `DBState`, a list of users
  and a list of stores; `findOne` is `List.find?`, an insert appends,
  a save of an entity that already has an id replaces it in place;
* a repository `save` that the database rejects (the failure mode the
  spec's atomicity sentence is about) is modelled by the boolean
  parameter `storeSaveFails` on the operations that insert a Store:
  when it is true the Store insert raises, mirroring an exception
  thrown by `this.storeRepository.save(store)`.
-/

namespace KyuCollect

/-- A JavaScript Date: epoch milliseconds and the year `getFullYear()` returns. -/
structure DateTime where
  epochMs : Nat
  year : Int
deriving DecidableEq, Repr

/-- UserRole from the User entity, as used by the auth service. -/
inductive UserRole where
  | customer
  | storeOwner
deriving DecidableEq, Repr

/-- UserType from the User entity, as used by the auth service. -/
inductive UserType where
  | local
  | oauthGoogle
  | oauthApple
deriving DecidableEq, Repr

/-- A postal address, the shape used for businessAddress / legalAddress. -/
structure Address where
  street : String
  city : String
  postalCode : String
  country : String
deriving DecidableEq, Repr

/-- Country-specific regulatory identifiers (entities and auth.service.ts). -/
structure CountryFields where
  siren : Option String := none
  siret : Option String := none
  frenchBusinessType : Option String := none
  ein : Option String := none
  companyNumber : Option String := none
  ukVatNumber : Option String := none
  euVatNumber : Option String := none
  taxId : Option String := none
  businessRegistrationNumber : Option String := none
deriving DecidableEq, Repr

/-- Verification state of one business document (Store entity). -/
inductive VerifState where
  | pending
  | verified
  | rejected
deriving DecidableEq, Repr

/-- The documentVerificationStatus map of the Store entity: a fixed record
with exactly the six named document kinds, nothing else. -/
structure DocVerificationStatus where
  registrationCertificate : VerifState
  sirenCertificate : VerifState
  taxCertificate : VerifState
  identityDocument : VerifState
  proofOfAddress : VerifState
  bankDetails : VerifState
deriving DecidableEq, Repr

/-- The literal `...: 'pending'` object both store-creation sites build. -/
def allPendingStatus : DocVerificationStatus :=
  { registrationCertificate := VerifState.pending
    sirenCertificate := VerifState.pending
    taxCertificate := VerifState.pending
    identityDocument := VerifState.pending
    proofOfAddress := VerifState.pending
    bankDetails := VerifState.pending }

/-- The User entity fields the auth service reads or writes. -/
structure User where
  id : String
  email : String
  password : Option String := none
  firstName : Option String := none
  lastName : Option String := none
  role : UserRole
  type : UserType
  isActive : Bool := true
  isFullyRegistered : Bool := false
  lastLoginAt : Option DateTime := none
  businessName : Option String := none
  businessType : Option String := none
  businessAddress : Option Address := none
  countrySpecificFields : Option CountryFields := none
  ownerPhone : Option String := none
  ownerDateOfBirth : Option DateTime := none
  acceptedTerms : Option Bool := none
  acceptedPrivacyPolicy : Option Bool := none
  acceptedDataProcessing : Option Bool := none
  marketingConsent : Option Bool := none
  termsAcceptedAt : Option DateTime := none
  privacyPolicyAcceptedAt : Option DateTime := none
  dataProcessingAcceptedAt : Option DateTime := none
  marketingConsentGivenAt : Option DateTime := none
  registrationIpAddress : Option String := none
  registrationUserAgent : Option String := none
deriving DecidableEq, Repr

/-- The Store entity fields the auth service reads or writes. -/
structure Store where
  id : String
  ownerId : Option String := none
  name : String
  slug : Option String := none
  address : Option String := none
  phone : Option String := none
  isActive : Bool := true
  legalBusinessName : Option String := none
  legalBusinessType : Option String := none
  legalAddress : Option Address := none
  countrySpecificFields : Option CountryFields := none
  documentVerificationStatus : Option DocVerificationStatus := none
  isLegallyVerified : Bool := false
deriving DecidableEq, Repr

/-- The persistent state behind the two TypeORM repositories. -/
structure DBState where
  users : List User
  stores : List Store
deriving DecidableEq, Repr

/-- The empty database. -/
def emptyDB : DBState := { users := [], stores := [] }

/-- External collaborators of the auth service: bcryptjs and Date parsing,
plus the current wall-clock time of the call. -/
structure Env where
  bcryptHash : String → String
  bcryptCompare : String → String → Bool
  parseDate : String → DateTime
  now : DateTime

/-- The JavaScript builtin String.prototype.toLowerCase, used by the auth
service to normalize emails (character-wise lowering). -/
def jsToLower (s : String) : String :=
  String.mk (s.data.map Char.toLower)

/-- userRepository.findOne by an exact (already normalized) email. -/
def findUserByEmail (s : DBState) (e : String) : Option User :=
  s.users.find? (fun u => u.email = e)

/-- userRepository.findOne by id. -/
def findUserById (s : DBState) (i : String) : Option User :=
  s.users.find? (fun u => u.id = i)

/-- userRepository.save of an entity fresh from repository.create: an insert. -/
def insertUser (s : DBState) (u : User) : DBState :=
  { s with users := s.users ++ [u] }

/-- userRepository.save of an entity that already has an id: an update in place. -/
def saveExistingUser (s : DBState) (u : User) : DBState :=
  { s with users := s.users.map (fun v => if v.id = u.id then u else v) }

/-- storeRepository.save of an entity fresh from repository.create: an insert. -/
def insertStore (s : DBState) (st : Store) : DBState :=
  { s with stores := s.stores ++ [st] }

/-- Split a character list at spaces (helper for the slug derivation). -/
def splitAtSpaces : List Char → List (List Char)
  | [] => [[]]
  | c :: rest =>
    if c = ' ' then [] :: splitAtSpaces rest
    else
      match splitAtSpaces rest with
      | [] => [[c]]
      | t :: ts => (c :: t) :: ts

/-- Modelled from the spec: the slug helper `createSlug`
(imported from src/utils/slug.ts, a file that is absent from the sources).
Spec, slug derivation: deterministic, lowercase, whitespace and punctuation
folded to a single separator, non-alphanumerics stripped. -/
def createSlug (name : String) : String :=
  let mapped := name.data.map (fun c => if c.isAlphanum then Char.toLower c else ' ')
  String.mk (List.intercalate ['-'] ((splitAtSpaces mapped).filter (fun t => t ≠ [])))

/-- Request body of AuthService.login. -/
structure LoginRequest where
  email : String
  password : String
deriving DecidableEq, Repr

/-- Request body of AuthService.registerCustomer. -/
structure CustomerRegisterRequest where
  email : String
  password : String
  firstName : String
  lastName : String
deriving DecidableEq, Repr

/-- Request body of AuthService.registerStoreOwner. -/
structure StoreOwnerRegisterRequest where
  email : String
  password : String
  storeName : String
  businessName : String
  businessType : String
  businessAddress : Address
  ownerFirstName : String
  ownerLastName : String
  ownerPhone : String
  ownerDateOfBirth : DateTime
  acceptedTerms : Bool
  acceptedPrivacyPolicy : Bool
  acceptedDataProcessing : Bool
  marketingConsent : Option Bool := none
  countrySpecificFields : Option CountryFields := none
  ipAddress : String
  userAgent : String
deriving DecidableEq, Repr

/-- Data argument of AuthService.completeOnboarding. -/
structure OnboardingData where
  phoneNumber : String
  storeName : String
  siret : String
  storeAddress : Address
  billingAddress : Address
  acceptedCGU : Bool
  acceptedCGUAt : String
deriving DecidableEq, Repr

/-- AuthService.login. Returns the state after the call together with
either the logged-in user (after the lastLoginAt touch) or the thrown
error message. Mirrors auth.service.ts lines 83-124: lookup by lowercased
email, `Invalid credentials` when the user or its password credential is
missing or bcrypt.compare rejects, `Account is deactivated` when the user
is inactive, and only then the lastLoginAt update and save. -/
def login (env : Env) (s : DBState) (credentials : LoginRequest) :
    DBState × Except String User :=
  match findUserByEmail s (jsToLower credentials.email) with
  | none => (s, Except.error "Invalid credentials")
  | some user =>
    match user.password with
    | none => (s, Except.error "Invalid credentials")
    | some stored =>
      if ¬ env.bcryptCompare credentials.password stored then
        (s, Except.error "Invalid credentials")
      else if ¬ user.isActive then
        (s, Except.error "Account is deactivated")
      else
        let user1 := { user with lastLoginAt := some env.now }
        (saveExistingUser s user1, Except.ok user1)

/-- The customer login controller response (auth.controller.ts customerLogin):
200 on success, and on any service error a 401 whose body carries the
error message verbatim. The storeOwnerLogin method is byte-identical. -/
def customerLoginResponse (env : Env) (s : DBState) (credentials : LoginRequest) :
    Nat × String :=
  match (login env s credentials).2 with
  | Except.ok _ => (200, "Login successful")
  | Except.error msg => (401, msg)

/-- The User entity AuthService.registerCustomer builds and saves. -/
def mkCustomerUser (env : Env) (req : CustomerRegisterRequest) (newId : String) : User :=
  { id := newId
    email := jsToLower req.email
    password := some (env.bcryptHash req.password)
    firstName := some req.firstName
    lastName := some req.lastName
    role := UserRole.customer
    type := UserType.local }

/-- AuthService.registerCustomer (auth.service.ts lines 126-168): duplicate
check on the lowercased email, then hash and insert. `newId` stands for the
uuid the database generates at save time. -/
def registerCustomer (env : Env) (s : DBState) (req : CustomerRegisterRequest)
    (newId : String) : DBState × Except String User :=
  if (findUserByEmail s (jsToLower req.email)).isSome then
    (s, Except.error "Email already registered")
  else
    let user := mkCustomerUser env req newId
    (insertUser s user, Except.ok user)

/-- The User entity AuthService.registerStoreOwner builds and saves
(auth.service.ts lines 212-239): note `isFullyRegistered := false`. -/
def mkStoreOwnerUser (env : Env) (req : StoreOwnerRegisterRequest)
    (newId : String) : User :=
  { id := newId
    email := jsToLower req.email
    password := some (env.bcryptHash req.password)
    firstName := some req.ownerFirstName
    lastName := some req.ownerLastName
    role := UserRole.storeOwner
    type := UserType.local
    businessName := some req.businessName
    businessType := some req.businessType
    businessAddress := some req.businessAddress
    countrySpecificFields := req.countrySpecificFields
    ownerPhone := some req.ownerPhone
    ownerDateOfBirth := some req.ownerDateOfBirth
    acceptedTerms := some req.acceptedTerms
    acceptedPrivacyPolicy := some req.acceptedPrivacyPolicy
    acceptedDataProcessing := some req.acceptedDataProcessing
    marketingConsent := req.marketingConsent
    termsAcceptedAt := if req.acceptedTerms then some env.now else none
    privacyPolicyAcceptedAt := if req.acceptedPrivacyPolicy then some env.now else none
    dataProcessingAcceptedAt := if req.acceptedDataProcessing then some env.now else none
    marketingConsentGivenAt :=
      if req.marketingConsent.getD false then some env.now else none
    registrationIpAddress := some req.ipAddress
    registrationUserAgent := some req.userAgent
    isFullyRegistered := false }

/-- The Store entity AuthService.registerStoreOwner builds and saves
(auth.service.ts lines 244-261). -/
def mkStoreOwnerStore (req : StoreOwnerRegisterRequest) (ownerId newStoreId : String) :
    Store :=
  { id := newStoreId
    ownerId := some ownerId
    name := req.storeName
    slug := some (createSlug req.storeName)
    legalBusinessName := some req.businessName
    legalBusinessType := some req.businessType
    legalAddress := some req.businessAddress
    countrySpecificFields := req.countrySpecificFields
    documentVerificationStatus := some allPendingStatus }

/-- AuthService.registerStoreOwner (auth.service.ts lines 170-314):
duplicate-email check, calendar-year age check, user insert, store insert —
two separate repository saves, with no surrounding transaction.
`storeSaveFails` injects a database failure of the second save
(`this.storeRepository.save(store)` throwing); the exception propagates
and nothing undoes the already-performed user save. -/
def registerStoreOwner (env : Env) (storeSaveFails : Bool) (s : DBState)
    (req : StoreOwnerRegisterRequest) (newUserId newStoreId : String) :
    DBState × Except String (User × Store) :=
  if (findUserByEmail s (jsToLower req.email)).isSome then
    (s, Except.error "Email already registered")
  else if env.now.year - req.ownerDateOfBirth.year < 18 then
    (s, Except.error "You must be at least 18 years old to register")
  else
    let user := mkStoreOwnerUser env req newUserId
    let s1 := insertUser s user
    let store := mkStoreOwnerStore req newUserId newStoreId
    if storeSaveFails then
      (s1, Except.error "store save failed")
    else
      (insertStore s1 store, Except.ok (user, store))

/-- The updated User entity AuthService.completeOnboarding saves
(auth.service.ts lines 371-385): phone, business address and siret
backfill, all three consent flags set to acceptedCGU, the three matching
timestamps set to the parsed acceptedCGUAt when acceptedCGU holds and
cleared otherwise, role upgraded, isFullyRegistered set. -/
def onboardUser (env : Env) (u : User) (data : OnboardingData) : User :=
  { u with
    ownerPhone := some data.phoneNumber
    businessAddress := some data.storeAddress
    countrySpecificFields :=
      some { u.countrySpecificFields.getD {} with siret := some data.siret }
    acceptedTerms := some data.acceptedCGU
    termsAcceptedAt :=
      if data.acceptedCGU then some (env.parseDate data.acceptedCGUAt) else none
    acceptedPrivacyPolicy := some data.acceptedCGU
    privacyPolicyAcceptedAt :=
      if data.acceptedCGU then some (env.parseDate data.acceptedCGUAt) else none
    acceptedDataProcessing := some data.acceptedCGU
    dataProcessingAcceptedAt :=
      if data.acceptedCGU then some (env.parseDate data.acceptedCGUAt) else none
    role := UserRole.storeOwner
    isFullyRegistered := true }

/-- The Store entity AuthService.completeOnboarding builds and saves
(auth.service.ts lines 390-408). -/
def mkOnboardingStore (data : OnboardingData) (ownerId newStoreId : String) : Store :=
  { id := newStoreId
    ownerId := some ownerId
    name := data.storeName
    slug := some (createSlug data.storeName)
    legalAddress := some data.storeAddress
    address := some (data.storeAddress.street ++ ", " ++ data.storeAddress.postalCode
      ++ " " ++ data.storeAddress.city)
    phone := some data.phoneNumber
    countrySpecificFields := some { siret := some data.siret }
    documentVerificationStatus := some allPendingStatus }

/-- AuthService.completeOnboarding (auth.service.ts lines 343-431): user
lookup by id, in-place user update and save, then a separate store insert —
again two sequential saves with no transaction; `storeSaveFails` injects a
failure of the store insert, after which the user update still persists. -/
def completeOnboarding (env : Env) (storeSaveFails : Bool) (s : DBState)
    (userId : String) (data : OnboardingData) (newStoreId : String) :
    DBState × Except String (User × Store) :=
  match findUserById s userId with
  | none => (s, Except.error "User not found")
  | some user =>
    let user1 := onboardUser env user data
    let s1 := saveExistingUser s user1
    let store := mkOnboardingStore data userId newStoreId
    if storeSaveFails then
      (s1, Except.error "store save failed")
    else
      (insertStore s1 store, Except.ok (user1, store))

/-- AuthService.checkStoreNameAvailability (auth.service.ts lines 433-445):
derive the slug and report whether a store already holds it. -/
def checkStoreNameAvailability (s : DBState) (storeName : String) :
    Bool × String :=
  let slug := createSlug storeName
  ((s.stores.find? (fun st => st.slug = some slug)).isNone, slug)

/-- The error classes `jwt.verify` of the jsonwebtoken library can throw. -/
inductive JwtError where
  | malformed
  | expired
  | notBefore
deriving DecidableEq, Repr

/-- The runtime test `error instanceof jwt.JsonWebTokenError`. In the
jsonwebtoken library both `TokenExpiredError` and `NotBeforeError` are
subclasses of `JsonWebTokenError`, so the test is true for every error
the verifier throws. -/
def isJsonWebTokenError : JwtError → Bool :=
  fun _ => true

/-- The runtime test `error instanceof jwt.TokenExpiredError`. -/
def isTokenExpiredError : JwtError → Bool
  | JwtError.expired => true
  | _ => false

/-- The token payload `generateToken` signs and `jwt.verify` returns. -/
structure TokenPayload where
  userId : String
  email : String
  role : UserRole
deriving DecidableEq, Repr

/-- The catch block of authMiddleware (auth.middleware.ts lines 52-60):
status and message produced for a `jwt.verify` failure, with the
`instanceof JsonWebTokenError` test performed before the
`instanceof TokenExpiredError` test. -/
def authMiddlewareCatch (e : JwtError) : Nat × String :=
  if isJsonWebTokenError e then (401, "Unauthorized - Invalid token")
  else if isTokenExpiredError e then (401, "Unauthorized - Token expired")
  else (500, "Internal server error")

/-- AuthService.validateToken (auth.service.ts lines 328-341). The outcome
of `jwt.verify` is passed in as `verified`; any verification error is
swallowed by the catch block, which returns null. -/
def validateToken (s : DBState) (verified : Except JwtError TokenPayload) :
    Option User :=
  match verified with
  | Except.error _ => none
  | Except.ok payload =>
    match s.users.find? (fun u => u.id = payload.userId && u.isActive) with
    | some user => some user
    | none => none

/-- One principal-creating registration call, for reasoning about call
sequences against the two registration paths of the auth service. -/
inductive RegOp where
  | customer (req : CustomerRegisterRequest) (newId : String)
  | storeOwner (storeSaveFails : Bool) (req : StoreOwnerRegisterRequest)
      (newUserId newStoreId : String)

/-- Run one registration call, forgetting the created Store of the
store-owner path so both paths report the created principal. -/
def runRegOp (env : Env) (s : DBState) : RegOp → DBState × Except String User
  | RegOp.customer req i => registerCustomer env s req i
  | RegOp.storeOwner b req uid sid =>
    ((registerStoreOwner env b s req uid sid).1,
      (registerStoreOwner env b s req uid sid).2.map Prod.fst)

/-- The normalized email a registration call registers under. -/
def regOpEmail : RegOp → String
  | RegOp.customer req _ => jsToLower req.email
  | RegOp.storeOwner _ req _ _ => jsToLower req.email

/-- Stored emails are pairwise distinct: at most one principal per
(normalized) email key. -/
def emailsDistinct (s : DBState) : Prop :=
  s.users.Pairwise (fun a b => a.email ≠ b.email)

/-- A concrete environment for evaluating the operations: an injective
stand-in for bcrypt hashing, the matching comparison, a fixed parse and a
clock reading year 2026. -/
def env0 : Env :=
  { bcryptHash := fun p => "h:" ++ p
    bcryptCompare := fun p h => h = "h:" ++ p
    parseDate := fun s => { epochMs := s.length, year := 2024 }
    now := { epochMs := 1000, year := 2026 } }

/-- A concrete, fully valid store-owner registration request. -/
def req0 : StoreOwnerRegisterRequest :=
  { email := "Owner@X.com"
    password := "pw12345A"
    storeName := "Chez Marie"
    businessName := "Chez Marie SARL"
    businessType := "llc"
    businessAddress := { street := "1 rue", city := "Paris", postalCode := "75001", country := "FR" }
    ownerFirstName := "Marie"
    ownerLastName := "D"
    ownerPhone := "+33600000000"
    ownerDateOfBirth := { epochMs := 0, year := 1990 }
    acceptedTerms := true
    acceptedPrivacyPolicy := true
    acceptedDataProcessing := true
    ipAddress := "127.0.0.1"
    userAgent := "test" }

/-- The same request with a 2010 date of birth: 2026 - 2010 = 16 < 18. -/
def req0underage : StoreOwnerRegisterRequest :=
  { req0 with ownerDateOfBirth := { epochMs := 0, year := 2010 } }

/-- A concrete customer registration request with a mixed-case email. -/
def custReq1 : CustomerRegisterRequest :=
  { email := "A@x.com", password := "pw12345A", firstName := "Ann", lastName := "A" }

/-- A second request whose email differs only in case from custReq1. -/
def custReq2 : CustomerRegisterRequest :=
  { email := "a@X.com", password := "pw67890B", firstName := "Ann", lastName := "B" }

/-- A concrete onboarding payload. -/
def onb0 : OnboardingData :=
  { phoneNumber := "+33611111111"
    storeName := "Chez Marie"
    siret := "12345678901234"
    storeAddress := { street := "1 rue", city := "Paris", postalCode := "75001", country := "FR" }
    billingAddress := { street := "1 rue", city := "Paris", postalCode := "75001", country := "FR" }
    acceptedCGU := true
    acceptedCGUAt := "2026-01-01" }

/-- An active local customer with a stored password hash. -/
def aliceUser : User :=
  { id := "a1"
    email := "alice@x.com"
    password := some "h:pw"
    role := UserRole.customer
    type := UserType.local
    isActive := true }

/-- A deactivated local customer with a stored password hash. -/
def bobUser : User :=
  { id := "b1"
    email := "bob@x.com"
    password := some "h:pw"
    role := UserRole.customer
    type := UserType.local
    isActive := false }

/-- A database holding one active and one deactivated account. -/
def twoUserDB : DBState :=
  { users := [aliceUser, bobUser], stores := [] }

/-- An OAuth-created principal that has not completed onboarding yet. -/
def oauthUser : User :=
  { id := "u1"
    email := "o@x.com"
    role := UserRole.customer
    type := UserType.oauthGoogle
    isActive := true }

/-- A database holding only the pending OAuth principal. -/
def oauthUserDB : DBState :=
  { users := [oauthUser], stores := [] }

end KyuCollect

namespace KyuCollect

/-- Claim C4 (code bug): validateToken collapses both failure kinds to the
same result (null), and the authMiddleware catch block answers an expired
token with the malformed-token message, because the
`instanceof JsonWebTokenError` test (which every jsonwebtoken error
satisfies, TokenExpiredError being a subclass) runs before the
`instanceof TokenExpiredError` test; the expired branch is unreachable,
so callers cannot distinguish the two failure kinds. -/
theorem claim_C4_middleware_expired_indistinguishable :
    authMiddlewareCatch JwtError.expired = (401, "Unauthorized - Invalid token")
    ∧ authMiddlewareCatch JwtError.malformed = (401, "Unauthorized - Invalid token")
    ∧ (∀ e : JwtError, authMiddlewareCatch e ≠ (401, "Unauthorized - Token expired"))
    ∧ validateToken emptyDB (Except.error JwtError.expired) = none
    ∧ validateToken emptyDB (Except.error JwtError.malformed) = none := by
  refine ⟨by decide, by decide, ?_, by decide, by decide⟩
  intro e
  cases e <;> decide

/-- Claim C1 (counterexample): with a store insert that fails after the
principal insert succeeded, registerStoreOwner reports a failure, yet the
stored state is not the state from before the call — the newly created
principal is still persisted, so the writes are not rolled back together. -/
theorem claim_C1_counterexample :
    (registerStoreOwner env0 true emptyDB req0 "u1" "s1").2.isOk = false
    ∧ (registerStoreOwner env0 true emptyDB req0 "u1" "s1").1 ≠ emptyDB
    ∧ (registerStoreOwner env0 true emptyDB req0 "u1" "s1").1.users.length = 1 := by
  decide

/-- Claim C3 (counterexample): a successful registerStoreOwner call creates
its principal with isFullyRegistered = false, not true. -/
theorem claim_C3_counterexample :
    (registerStoreOwner env0 false emptyDB req0 "u1" "s1").2.isOk = true
    ∧ (registerStoreOwner env0 false emptyDB req0 "u1" "s1").1.users.map
        User.isFullyRegistered = [false] := by
  decide

/-- Claim C6 (counterexample): a wrong password and a deactivated account
both yield status 401, but with different response bodies — the two causes
are distinguishable from the body. -/
theorem claim_C6_counterexample :
    customerLoginResponse env0 twoUserDB { email := "alice@x.com", password := "wrong" }
      = (401, "Invalid credentials")
    ∧ customerLoginResponse env0 twoUserDB { email := "bob@x.com", password := "pw" }
      = (401, "Account is deactivated") := by
  decide

end KyuCollect

namespace KyuCollect

/-- The email-taken branch of registerCustomer leaves the state unchanged. -/
theorem registerCustomer_email_taken (env : Env) (s : DBState)
    (req : CustomerRegisterRequest) (i : String)
    (h : (findUserByEmail s (jsToLower req.email)).isSome = true) :
    registerCustomer env s req i = (s, Except.error "Email already registered") := by
  unfold registerCustomer
  rw [if_pos h]

/-- The fresh-email branch of registerCustomer inserts the new principal. -/
theorem registerCustomer_fresh (env : Env) (s : DBState)
    (req : CustomerRegisterRequest) (i : String)
    (h : findUserByEmail s (jsToLower req.email) = none) :
    registerCustomer env s req i =
      (insertUser s (mkCustomerUser env req i), Except.ok (mkCustomerUser env req i)) := by
  unfold registerCustomer
  rw [h]
  rfl

/-- The email-taken branch of registerStoreOwner leaves the state unchanged. -/
theorem registerStoreOwner_email_taken (env : Env) (b : Bool) (s : DBState)
    (req : StoreOwnerRegisterRequest) (uid sid : String)
    (h : (findUserByEmail s (jsToLower req.email)).isSome = true) :
    registerStoreOwner env b s req uid sid =
      (s, Except.error "Email already registered") := by
  unfold registerStoreOwner
  rw [if_pos h]

/-- The underage branch of registerStoreOwner leaves the state unchanged. -/
theorem registerStoreOwner_underage (env : Env) (b : Bool) (s : DBState)
    (req : StoreOwnerRegisterRequest) (uid sid : String)
    (h : findUserByEmail s (jsToLower req.email) = none)
    (hage : env.now.year - req.ownerDateOfBirth.year < 18) :
    registerStoreOwner env b s req uid sid =
      (s, Except.error "You must be at least 18 years old to register") := by
  unfold registerStoreOwner
  rw [h]
  rw [if_neg (by simp), if_pos hage]

/-- The fully successful branch of registerStoreOwner: principal and store
are both inserted. -/
theorem registerStoreOwner_ok (env : Env) (s : DBState)
    (req : StoreOwnerRegisterRequest) (uid sid : String)
    (h : findUserByEmail s (jsToLower req.email) = none)
    (hage : ¬ env.now.year - req.ownerDateOfBirth.year < 18) :
    registerStoreOwner env false s req uid sid =
      (insertStore (insertUser s (mkStoreOwnerUser env req uid))
          (mkStoreOwnerStore req uid sid),
        Except.ok (mkStoreOwnerUser env req uid, mkStoreOwnerStore req uid sid)) := by
  unfold registerStoreOwner
  rw [h]
  rw [if_neg (by simp), if_neg hage]
  rfl

/-- A failing store insert still leaves the freshly inserted principal
behind: the user save has already been issued when the store save throws. -/
theorem registerStoreOwner_storefail (env : Env) (s : DBState)
    (req : StoreOwnerRegisterRequest) (uid sid : String)
    (h : findUserByEmail s (jsToLower req.email) = none)
    (hage : ¬ env.now.year - req.ownerDateOfBirth.year < 18) :
    registerStoreOwner env true s req uid sid =
      (insertUser s (mkStoreOwnerUser env req uid), Except.error "store save failed") := by
  unfold registerStoreOwner
  rw [h]
  rw [if_neg (by simp), if_neg hage]
  rfl

/-- Any registration call whose normalized email is already stored fails
with the duplicate-email error and leaves the state unchanged. -/
theorem regOp_fails_of_hasEmail (env : Env) (s : DBState) (op : RegOp)
    (h : ∃ u ∈ s.users, u.email = regOpEmail op) :
    runRegOp env s op = (s, Except.error "Email already registered") := by
  obtain ⟨u, hu, hue⟩ := h
  have hsome : (findUserByEmail s (regOpEmail op)).isSome = true := by
    unfold findUserByEmail
    exact List.find?_isSome.mpr ⟨u, hu, by simp [hue]⟩
  cases op with
  | customer req i =>
    simp only [regOpEmail] at hsome
    simp only [runRegOp]
    rw [registerCustomer_email_taken env s req i hsome]
  | storeOwner b req uid sid =>
    simp only [regOpEmail] at hsome
    simp only [runRegOp]
    rw [registerStoreOwner_email_taken env b s req uid sid hsome]
    rfl

/-- A successful registration call appends exactly one principal, stored
under the normalized request email. -/
theorem runRegOp_ok_users (env : Env) (s : DBState) (op : RegOp) (u : User)
    (h : (runRegOp env s op).2 = Except.ok u) :
    (runRegOp env s op).1.users = s.users ++ [u] ∧ u.email = regOpEmail op := by
  cases op with
  | customer req i =>
    simp only [runRegOp] at h ⊢
    cases hf : findUserByEmail s (jsToLower req.email) with
    | some v =>
      rw [registerCustomer_email_taken env s req i (by rw [hf]; rfl)] at h ⊢
      simp at h
    | none =>
      rw [registerCustomer_fresh env s req i hf] at h ⊢
      injection h with hu
      subst hu
      exact ⟨rfl, rfl⟩
  | storeOwner b req uid sid =>
    simp only [runRegOp] at h ⊢
    cases hf : findUserByEmail s (jsToLower req.email) with
    | some v =>
      rw [registerStoreOwner_email_taken env b s req uid sid (by rw [hf]; rfl)] at h ⊢
      simp [Except.map] at h
    | none =>
      by_cases hage : env.now.year - req.ownerDateOfBirth.year < 18
      · rw [registerStoreOwner_underage env b s req uid sid hf hage] at h ⊢
        simp [Except.map] at h
      · cases b
        · rw [registerStoreOwner_ok env s req uid sid hf hage] at h ⊢
          simp only [Except.map] at h
          injection h with hu
          subst hu
          exact ⟨rfl, rfl⟩
        · rw [registerStoreOwner_storefail env s req uid sid hf hage] at h ⊢
          simp [Except.map] at h

/-- Inserting a principal whose stored email is absent keeps the stored
emails pairwise distinct. -/
theorem emailsDistinct_insert (s : DBState) (u : User)
    (hd : emailsDistinct s)
    (hnone : findUserByEmail s u.email = none) :
    emailsDistinct (insertUser s u) := by
  have hall : ∀ x ∈ s.users, ¬ x.email = u.email := by
    intro x hx
    have := List.find?_eq_none.mp hnone x hx
    simpa using this
  unfold emailsDistinct insertUser at *
  refine List.pairwise_append.mpr ⟨hd, List.pairwise_singleton _ _, ?_⟩
  intro a ha c hc
  rw [List.mem_singleton] at hc
  subst hc
  exact hall a ha

/-- Every registration call preserves pairwise-distinct stored emails. -/
theorem emailsDistinct_step (env : Env) (s : DBState) (op : RegOp)
    (h : emailsDistinct s) : emailsDistinct (runRegOp env s op).1 := by
  cases op with
  | customer req i =>
    simp only [runRegOp]
    cases hf : findUserByEmail s (jsToLower req.email) with
    | some v =>
      rw [registerCustomer_email_taken env s req i (by rw [hf]; rfl)]
      exact h
    | none =>
      rw [registerCustomer_fresh env s req i hf]
      exact emailsDistinct_insert s _ h hf
  | storeOwner b req uid sid =>
    simp only [runRegOp]
    cases hf : findUserByEmail s (jsToLower req.email) with
    | some v =>
      rw [registerStoreOwner_email_taken env b s req uid sid (by rw [hf]; rfl)]
      exact h
    | none =>
      by_cases hage : env.now.year - req.ownerDateOfBirth.year < 18
      · rw [registerStoreOwner_underage env b s req uid sid hf hage]
        exact h
      · cases b
        · rw [registerStoreOwner_ok env s req uid sid hf hage]
          exact emailsDistinct_insert s _ h hf
        · rw [registerStoreOwner_storefail env s req uid sid hf hage]
          exact emailsDistinct_insert s _ h hf

/-- A list of users with pairwise distinct emails holds at most one user
under any given email key. -/
theorem pairwise_email_count (l : List User) (k : String)
    (h : l.Pairwise (fun a b => a.email ≠ b.email)) :
    (l.filter (fun u => u.email = k)).length ≤ 1 := by
  induction l with
  | nil => simp
  | cons a t ih =>
    rw [List.pairwise_cons] at h
    obtain ⟨h1, h2⟩ := h
    by_cases hk : a.email = k
    · have hnil : t.filter (fun u => u.email = k) = [] := by
        refine List.filter_eq_nil_iff.mpr ?_
        intro c hc
        have := h1 c hc
        simp only [decide_eq_true_eq]
        intro hck
        exact this (by rw [hk, hck])
      simp [List.filter_cons, hk, hnil]
    · simpa [List.filter_cons, hk] using ih h2

end KyuCollect

namespace KyuCollect

/-- Claim C1 (amended): registerStoreOwner and completeOnboarding issue
their Principal write and their Store write as two separate sequential
repository saves with no enclosing transaction; when the Store insert
fails after the Principal write succeeded, the Principal write persists —
it is not rolled back, and only the not-yet-issued Store write is missing
from the stored state. -/
theorem claim_C1_no_transaction :
    (∀ (env : Env) (s : DBState) (req : StoreOwnerRegisterRequest) (uid sid : String),
      findUserByEmail s (jsToLower req.email) = none →
      ¬ env.now.year - req.ownerDateOfBirth.year < 18 →
      registerStoreOwner env true s req uid sid =
        (insertUser s (mkStoreOwnerUser env req uid), Except.error "store save failed"))
    ∧ (∀ (env : Env) (s : DBState) (uid : String) (data : OnboardingData)
      (sid : String) (u0 : User),
      findUserById s uid = some u0 →
      completeOnboarding env true s uid data sid =
        (saveExistingUser s (onboardUser env u0 data), Except.error "store save failed")) := by
  constructor
  · intro env s req uid sid hfind hage
    exact registerStoreOwner_storefail env s req uid sid hfind hage
  · intro env s uid data sid u0 hfind
    unfold completeOnboarding
    rw [hfind]
    rfl

/-- Witness for claim C1: the amended statement evaluated on the concrete
valid request against the empty database. -/
theorem claim_C1_no_transaction_witness :
    registerStoreOwner env0 true emptyDB req0 "u1" "s1" =
      (insertUser emptyDB (mkStoreOwnerUser env0 req0 "u1"),
        Except.error "store save failed") :=
  claim_C1_no_transaction.1 env0 emptyDB req0 "u1" "s1" (by decide) (by decide)

/-- Claim C2: a successful registration (either path) stores the principal
under the normalized email, and a second registration call through either
path whose email normalizes to the same string fails with the
duplicate-email error and leaves the state unchanged; moreover any
sequence of registration calls preserves pairwise-distinct stored emails,
which bounds the number of principals per normalized email by one. -/
theorem claim_C2_unique_email :
    (∀ (env env2 : Env) (s : DBState) (op1 op2 : RegOp),
      regOpEmail op1 = regOpEmail op2 →
      (runRegOp env s op1).2.isOk = true →
      runRegOp env2 (runRegOp env s op1).1 op2 =
        ((runRegOp env s op1).1, Except.error "Email already registered"))
    ∧ (∀ (env : Env) (s : DBState) (ops : List RegOp),
      emailsDistinct s →
      emailsDistinct (ops.foldl (fun t op => (runRegOp env t op).1) s))
    ∧ (∀ (s : DBState) (k : String), emailsDistinct s →
      (s.users.filter (fun u => u.email = k)).length ≤ 1) := by
  refine ⟨?_, ?_, ?_⟩
  · intro env env2 s op1 op2 heq hsucc
    cases hres : (runRegOp env s op1).2 with
    | error e =>
      rw [hres] at hsucc
      simp [Except.isOk, Except.toBool] at hsucc
    | ok u =>
      obtain ⟨husers, hue⟩ := runRegOp_ok_users env s op1 u hres
      refine regOp_fails_of_hasEmail env2 _ op2 ⟨u, ?_, ?_⟩
      · rw [husers]
        exact List.mem_append_right _ (List.mem_singleton_self u)
      · rw [hue, heq]
  · intro env s ops h
    induction ops generalizing s with
    | nil => exact h
    | cons op rest ih =>
      exact ih _ (emailsDistinct_step env s op h)
  · intro s k h
    exact pairwise_email_count s.users k h

/-- Witness for claim C2: registering A@x.com and then a@X.com (same
normalized email) — the second call fails with the duplicate-email error
and changes nothing. -/
theorem claim_C2_unique_email_witness :
    runRegOp env0 (runRegOp env0 emptyDB (RegOp.customer custReq1 "u1")).1
        (RegOp.customer custReq2 "u2") =
      ((runRegOp env0 emptyDB (RegOp.customer custReq1 "u1")).1,
        Except.error "Email already registered") :=
  claim_C2_unique_email.1 env0 env0 emptyDB (RegOp.customer custReq1 "u1")
    (RegOp.customer custReq2 "u2") (by decide) (by decide)

/-- Claim C3 (amended): every Principal a successful registerStoreOwner
call creates has the fully-registered flag set to false at creation. -/
theorem claim_C3_not_fully_registered :
    ∀ (env : Env) (b : Bool) (s : DBState) (req : StoreOwnerRegisterRequest)
      (uid sid : String) (u : User) (st : Store),
      (registerStoreOwner env b s req uid sid).2 = Except.ok (u, st) →
      u.isFullyRegistered = false := by
  intro env b s req uid sid u st h
  unfold registerStoreOwner at h
  split at h
  · simp at h
  · split at h
    · simp at h
    · split at h
      · simp at h
      · injection h with h2
        injection h2 with hu hst
        subst hu
        rfl

/-- Witness for claim C3: the concrete successful registration creates a
principal whose fully-registered flag is false. -/
theorem claim_C3_not_fully_registered_witness :
    (mkStoreOwnerUser env0 req0 "u1").isFullyRegistered = false :=
  claim_C3_not_fully_registered env0 false emptyDB req0 "u1" "s1"
    (mkStoreOwnerUser env0 req0 "u1") (mkStoreOwnerStore req0 "u1" "s1") rfl

/-- Claim C5: registerStoreOwner rejects every request whose calendar-year
difference (current year minus birth year) is strictly below 18, and never
raises the age error when the difference is exactly 18. -/
theorem claim_C5_age_check :
    (∀ (env : Env) (b : Bool) (s : DBState) (req : StoreOwnerRegisterRequest)
      (uid sid : String),
      env.now.year - req.ownerDateOfBirth.year < 18 →
      (registerStoreOwner env b s req uid sid).2.isOk = false)
    ∧ (∀ (env : Env) (b : Bool) (s : DBState) (req : StoreOwnerRegisterRequest)
      (uid sid : String),
      env.now.year - req.ownerDateOfBirth.year = 18 →
      (registerStoreOwner env b s req uid sid).2 ≠
        Except.error "You must be at least 18 years old to register") := by
  constructor
  · intro env b s req uid sid hage
    unfold registerStoreOwner
    by_cases hmail : (findUserByEmail s (jsToLower req.email)).isSome = true
    · rw [if_pos hmail]
      rfl
    · rw [if_neg hmail, if_pos hage]
      rfl
  · intro env b s req uid sid hage
    have hnot : ¬ env.now.year - req.ownerDateOfBirth.year < 18 := by omega
    unfold registerStoreOwner
    by_cases hmail : (findUserByEmail s (jsToLower req.email)).isSome = true
    · rw [if_pos hmail]
      intro hc
      injection hc with hm
      exact absurd hm (by decide)
    · rw [if_neg hmail, if_neg hnot]
      cases b
      · intro hc
        cases hc
      · intro hc
        injection hc with hm
        exact absurd hm (by decide)

/-- Witness for claim C5: the concrete underage request (birth year 2010
against clock year 2026) is rejected. -/
theorem claim_C5_age_check_witness :
    (registerStoreOwner env0 false emptyDB req0underage "u1" "s1").2.isOk = false :=
  claim_C5_age_check.1 env0 false emptyDB req0underage "u1" "s1" (by decide)

/-- Claim C6 (amended): every failed login produces status 401, but the
response body carries the internal error message verbatim, so the two
causes are distinguishable from the body: invalid credentials yield the
body message Invalid credentials while a deactivated account yields
Account is deactivated. -/
theorem claim_C6_distinct_bodies :
    ∀ (env : Env) (s : DBState) (cred : LoginRequest) (msg : String),
      (login env s cred).2 = Except.error msg →
      (msg = "Invalid credentials" ∨ msg = "Account is deactivated") ∧
      customerLoginResponse env s cred = (401, msg) := by
  intro env s cred msg h
  refine ⟨?_, ?_⟩
  · unfold login at h
    split at h
    · injection h with hm
      exact Or.inl hm.symm
    · split at h
      · injection h with hm
        exact Or.inl hm.symm
      · split at h
        · injection h with hm
          exact Or.inl hm.symm
        · split at h
          · injection h with hm
            exact Or.inr hm.symm
          · cases h
  · unfold customerLoginResponse
    rw [h]

/-- Witness for claim C6: the deactivated account produces the 401 with
its own distinguishing body. -/
theorem claim_C6_distinct_bodies_witness :
    (("Account is deactivated" : String) = "Invalid credentials" ∨
      ("Account is deactivated" : String) = "Account is deactivated") ∧
    customerLoginResponse env0 twoUserDB { email := "bob@x.com", password := "pw" } =
      (401, "Account is deactivated") :=
  claim_C6_distinct_bodies env0 twoUserDB { email := "bob@x.com", password := "pw" }
    "Account is deactivated" rfl

/-- Claim C7: the slug reported by checkStoreNameAvailability (on any
database state) equals the slug stored on the Store a successful
registerStoreOwner call with the same store name creates — both apply the
same deterministic derivation to the store name. -/
theorem claim_C7_slug_consistency :
    ∀ (env : Env) (b : Bool) (s s2 : DBState) (req : StoreOwnerRegisterRequest)
      (uid sid : String) (u : User) (st : Store),
      (registerStoreOwner env b s req uid sid).2 = Except.ok (u, st) →
      st.slug = some (checkStoreNameAvailability s2 req.storeName).2 := by
  intro env b s s2 req uid sid u st h
  unfold registerStoreOwner at h
  split at h
  · simp at h
  · split at h
    · simp at h
    · split at h
      · simp at h
      · injection h with h2
        injection h2 with hu hst
        subst hst
        rfl

/-- Witness for claim C7: the concrete registration stores the same slug
the availability check reports for the same name. -/
theorem claim_C7_slug_consistency_witness :
    (mkStoreOwnerStore req0 "u1" "s1").slug =
      some (checkStoreNameAvailability emptyDB req0.storeName).2 :=
  claim_C7_slug_consistency env0 false emptyDB emptyDB req0 "u1" "s1"
    (mkStoreOwnerUser env0 req0 "u1") (mkStoreOwnerStore req0 "u1" "s1") rfl

/-- Claim C8: every Store a successful registerStoreOwner or
completeOnboarding call creates carries the document-verification record
with exactly the six fixed document kinds, every one of them pending —
the record type has precisely those six fields, so none can be omitted. -/
theorem claim_C8_doc_status_all_pending :
    (∀ (env : Env) (b : Bool) (s : DBState) (req : StoreOwnerRegisterRequest)
      (uid sid : String) (u : User) (st : Store),
      (registerStoreOwner env b s req uid sid).2 = Except.ok (u, st) →
      st.documentVerificationStatus = some allPendingStatus)
    ∧ (∀ (env : Env) (b : Bool) (s : DBState) (uid : String)
      (data : OnboardingData) (sid : String) (u : User) (st : Store),
      (completeOnboarding env b s uid data sid).2 = Except.ok (u, st) →
      st.documentVerificationStatus = some allPendingStatus) := by
  constructor
  · intro env b s req uid sid u st h
    unfold registerStoreOwner at h
    split at h
    · simp at h
    · split at h
      · simp at h
      · split at h
        · simp at h
        · injection h with h2
          injection h2 with hu hst
          subst hst
          rfl
  · intro env b s uid data sid u st h
    unfold completeOnboarding at h
    split at h
    · simp at h
    · split at h
      · simp at h
      · injection h with h2
        injection h2 with hu hst
        subst hst
        rfl

/-- Witness for claim C8: the concrete registration creates its store with
all six document-verification entries pending. -/
theorem claim_C8_doc_status_all_pending_witness :
    (mkStoreOwnerStore req0 "u1" "s1").documentVerificationStatus =
      some allPendingStatus :=
  claim_C8_doc_status_all_pending.1 env0 false emptyDB req0 "u1" "s1"
    (mkStoreOwnerUser env0 req0 "u1") (mkStoreOwnerStore req0 "u1" "s1") rfl

/-- Claim C9: when login fails for any reason the state is unchanged, and
when it succeeds the only state change is the in-place save of the found
principal with its last-login timestamp set to the current time. -/
theorem claim_C9_login_frame :
    ∀ (env : Env) (s : DBState) (cred : LoginRequest),
      ((login env s cred).2.isOk = false → (login env s cred).1 = s)
      ∧ ((login env s cred).2.isOk = true →
          ∃ u, findUserByEmail s (jsToLower cred.email) = some u ∧
            (login env s cred).1 =
              saveExistingUser s { u with lastLoginAt := some env.now }) := by
  intro env s cred
  unfold login
  split
  · exact ⟨fun _ => rfl, fun h => by simp [Except.isOk, Except.toBool] at h⟩
  · next user heq =>
    split
    · exact ⟨fun _ => rfl, fun h => by simp [Except.isOk, Except.toBool] at h⟩
    · split
      · exact ⟨fun _ => rfl, fun h => by simp [Except.isOk, Except.toBool] at h⟩
      · split
        · exact ⟨fun _ => rfl, fun h => by simp [Except.isOk, Except.toBool] at h⟩
        · exact ⟨fun h => by simp [Except.isOk, Except.toBool] at h,
            fun _ => ⟨user, heq, rfl⟩⟩

/-- Witness for claim C9: a failing login against the empty database
leaves the database untouched. -/
theorem claim_C9_login_frame_witness :
    (login env0 emptyDB { email := "x@x.com", password := "p" }).1 = emptyDB :=
  (claim_C9_login_frame env0 emptyDB { email := "x@x.com", password := "p" }).1
    (by decide)

/-- Claim C10: the principal record completeOnboarding saves has all three
consent flags set to the single supplied acceptedCGU value, the three
matching timestamps set to the parsed acceptedCGUAt time when acceptedCGU
is true and cleared otherwise — overwriting whatever the principal held
before — and that record is what replaces the principal in the stored
state. -/
theorem claim_C10_onboarding_consents :
    ∀ (env : Env) (b : Bool) (s : DBState) (uid : String) (data : OnboardingData)
      (sid : String) (u0 : User),
      findUserById s uid = some u0 →
      (onboardUser env u0 data).acceptedTerms = some data.acceptedCGU
      ∧ (onboardUser env u0 data).acceptedPrivacyPolicy = some data.acceptedCGU
      ∧ (onboardUser env u0 data).acceptedDataProcessing = some data.acceptedCGU
      ∧ (onboardUser env u0 data).termsAcceptedAt =
          (if data.acceptedCGU then some (env.parseDate data.acceptedCGUAt) else none)
      ∧ (onboardUser env u0 data).privacyPolicyAcceptedAt =
          (if data.acceptedCGU then some (env.parseDate data.acceptedCGUAt) else none)
      ∧ (onboardUser env u0 data).dataProcessingAcceptedAt =
          (if data.acceptedCGU then some (env.parseDate data.acceptedCGUAt) else none)
      ∧ (completeOnboarding env b s uid data sid).1.users =
          s.users.map (fun v =>
            if v.id = (onboardUser env u0 data).id then onboardUser env u0 data else v) := by
  intro env b s uid data sid u0 h
  refine ⟨rfl, rfl, rfl, rfl, rfl, rfl, ?_⟩
  unfold completeOnboarding
  rw [h]
  cases b
  · rfl
  · rfl

/-- Witness for claim C10: the concrete onboarding call on the pending
OAuth principal. -/
theorem claim_C10_onboarding_consents_witness :
    (onboardUser env0 oauthUser onb0).acceptedTerms = some onb0.acceptedCGU :=
  (claim_C10_onboarding_consents env0 false oauthUserDB "u1" onb0 "s1" oauthUser
    (by decide)).1

end KyuCollect
